import Mathlib

/-
Verification of the session-authentication and token-revocation subsystem of
the dlpl-api backend (src/src/authentication/main.py and
src/src/routes/users.py), as a shallow embedding.

Modelling conventions:
* Time is integer Unix seconds (`Nat`); PyJWT compares the integer `exp`
  claim against the integer current time, expired iff `exp <= now`.
* Redis keys/values, token ids and user ids are ASCII character lists
  (`Str := List Char`); f-string interpolation of `None` and of booleans
  follows Python (`"None"`, `"True"`/`"False"`).
* A JWT is modelled as either a payload correctly signed with the process
  secret (`Token.signed p`) or anything that fails signature/structure
  checking (`Token.malformed`).  Payload dict keys that a crafted token may
  omit are `Option` fields; `none` means the key is absent.
* Python exceptions are an explicit result type `Res`: `HTTPException`
  becomes `Err.http status detail`, an uncaught `KeyError`
  (`payload['refresh']` on a payload without that key) becomes `Err.keyErr`,
  and a redis connection failure becomes `Err.storeErr`.
* The redis store is a list of entries with absolute expiry instants; an
  entry is visible iff `now < expiry` (`setex k ttl` expires at
  `now + ttl`).  `RStore.down` models an unavailable store, whose every
  operation raises.  Real redis rejects `setex` with a non-positive TTL,
  modelled by the `ttl == 0` guard.
-/

/-- Characters of an ASCII string: the representation used for redis keys,
redis values, token ids and user ids throughout the model. -/
abbrev Str := List Char

/-- Decoded JWT payload, the dict built by `AuthHandler.encode_token`:
keys `id`, `admin`, `is_active`, `sub`, `name`, `exp`, `refresh`.  `Option`
fields model keys a crafted token may omit (`none` = key absent). -/
structure Payload where
  id : Option Str
  admin : Bool
  is_active : Option Bool
  sub : Option Str
  name : Option Str
  exp : Option Nat
  refresh : Option Bool
deriving DecidableEq

/-- A JWT string: either a payload validly signed with the process secret,
or input that fails PyJWT structure/signature checking. -/
inductive Token where
  | signed (p : Payload)
  | malformed
deriving DecidableEq

/-- One redis entry: key, absolute expiry instant, value. -/
structure StoreEntry where
  key : Str
  expiry : Nat
  value : Str
deriving DecidableEq

/-- The revocation store contents (redis keyspace). -/
abbrev Store := List StoreEntry

/-- The revocation store handle: available with contents `s`, or
unreachable (every call raises a connection error). -/
inductive RStore where
  | avail (s : Store)
  | down
deriving DecidableEq

/-- A raised Python exception: `FastAPI HTTPException(status, detail)`, an
uncaught `KeyError`, or a redis connection/response error. -/
inductive Err where
  | http (statusCode : Nat) (detail : String)
  | keyErr
  | storeErr
deriving DecidableEq

/-- Result of a Python call: a return value or a raised exception. -/
inductive Res (α : Type) where
  | ok (a : α)
  | err (e : Err)
deriving DecidableEq

/-- Outcome of `jwt.decode` itself: payload, `ExpiredSignatureError`, or
`InvalidTokenError` (malformed input / bad signature). -/
inductive JwtRes where
  | ok (p : Payload)
  | expiredSignature
  | invalidToken
deriving DecidableEq

/-- The redis key namespace `"token:"` used for revocation markers. -/
def tokNs : Str := ['t', 'o', 'k', 'e', 'n', ':']

/-- Python f-string rendering of a boolean (`"True"` / `"False"`). -/
def pyBoolStr (b : Bool) : Str :=
  if b then ['T', 'r', 'u', 'e'] else ['F', 'a', 'l', 's', 'e']

/-- Python f-string rendering of a possibly-`None` id. -/
def pyIdStr : Option Str → Str
  | some s => s
  | none => ['N', 'o', 'n', 'e']

/-- An entry is visible at `now` iff its TTL has not lapsed. -/
def StoreEntry.live (e : StoreEntry) (now : Nat) : Bool :=
  decide (now < e.expiry)

/-- `redis.get(k)`: first live entry under `k`, `None` when absent; raises
on an unreachable store. -/
def redisGet (r : RStore) (now : Nat) (k : Str) : Res (Option Str) :=
  match r with
  | .down => .err .storeErr
  | .avail s =>
    .ok ((s.find? (fun e => e.key == k && e.live now)).map (fun e => e.value))

/-- `redis.setex(k, ttl, v)`: overwrite `k` with value `v` expiring at
`now + ttl`; redis rejects a non-positive TTL; raises when unreachable. -/
def redisSetex (r : RStore) (now : Nat) (k : Str) (ttl : Nat) (v : Str) :
    Res RStore :=
  match r with
  | .down => .err .storeErr
  | .avail s =>
    if ttl == 0 then .err .storeErr
    else .ok (.avail ({ key := k, expiry := now + ttl, value := v } ::
      s.filter (fun e => !(e.key == k))))

/-- `jwt.decode(token, secret, algorithms=['HS256'])`: signature check, then
expiry check (PyJWT: expired iff `exp <= now`; a payload without `exp` never
expires). -/
def jwtDecode (t : Token) (now : Nat) : JwtRes :=
  match t with
  | .malformed => .invalidToken
  | .signed p =>
    match p.exp with
    | some e => if e ≤ now then .expiredSignature else .ok p
    | none => .ok p

/-- `AuthHandler.decode_access_token`: `jwt.decode`, then reject a payload
without `sub`, then `payload['refresh']` (an uncaught `KeyError` when the
key is absent) rejecting `refresh == True`; PyJWT errors are mapped to 401
responses. -/
def decode_access_token (t : Token) (now : Nat) : Res Payload :=
  match jwtDecode t now with
  | .expiredSignature => .err (.http 401 "Signature has expired")
  | .invalidToken => .err (.http 401 "Invalid token")
  | .ok p =>
    if p.sub.isNone then .err (.http 401 "Invalid token")
    else
      match p.refresh with
      | none => .err .keyErr
      | some r => if r then .err (.http 401 "Invalid token") else .ok p

/-- `AuthHandler.decode_refresh_token`: same as `decode_access_token` but
rejecting `refresh == False`. -/
def decode_refresh_token (t : Token) (now : Nat) : Res Payload :=
  match jwtDecode t now with
  | .expiredSignature => .err (.http 401 "Signature has expired")
  | .invalidToken => .err (.http 401 "Invalid token")
  | .ok p =>
    if p.sub.isNone then .err (.http 401 "Invalid token")
    else
      match p.refresh with
      | none => .err .keyErr
      | some r => if r then .ok p else .err (.http 401 "Invalid token")

/-- The `user_data` dict handed to `encode_token` by the login/refresh
routes (`name`, `id`, `admin`, `is_active`); the `.get(..., False)` defaults
for `admin`/`is_active` are folded into the `Bool` fields. -/
structure UserData where
  id : Option Str
  name : Option Str
  admin : Bool
  is_active : Bool
deriving DecidableEq

/-- `AuthHandler.encode_token(user_data, type)`: the fresh `uuid4().hex`
token id is passed explicitly as `tid`.  `type == 'access_token'` gives
`exp = now + 60 min`, `refresh = False`; any other type gives
`exp = now + 720 h`, `refresh = True`. -/
def encode_token (ud : UserData) (type : String) (now : Nat) (tid : Str) :
    Token :=
  if type = "access_token" then
    .signed { id := some tid, admin := ud.admin, is_active := some ud.is_active,
              sub := ud.id, name := ud.name, exp := some (now + 3600),
              refresh := some false }
  else
    .signed { id := some tid, admin := ud.admin, is_active := some ud.is_active,
              sub := ud.id, name := ud.name, exp := some (now + 2592000),
              refresh := some true }

/-- Value of `redis.get(k)` on an available store (first live entry). -/
def firstLiveValue (s : Store) (now : Nat) (k : Str) : Option Str :=
  (s.find? (fun e => e.key == k && e.live now)).map (fun e => e.value)

/-- The login sweep's per-key decision: `scan_iter(match='token:*')` yields
`k` when a live entry under `k` matches the glob, and the body deletes `k`
iff its value is truthy and starts with the `"{user_id}:"` pattern. -/
def sweepDeletes (s : Store) (now : Nat) (pat : Str) (k : Str) : Bool :=
  tokNs.isPrefixOf k &&
    match firstLiveValue s now k with
    | some v => !v.isEmpty && pat.isPrefixOf v
    | none => false

/-- Store contents after the login-time cleanup sweep in
`encode_login_token` (the `scan_iter`/`get`/`delete` loop). -/
def sweepStore (s : Store) (now : Nat) (pat : Str) : Store :=
  s.filter (fun e => !sweepDeletes s now pat e.key)

/-- `AuthHandler.encode_login_token(user_data)`: sweep the store for
markers whose value starts with `"{user_data.get('id')}:"`, then issue the
access/refresh token pair.  The two fresh `uuid4().hex` ids are passed as
`tid1`/`tid2`.  No exception handling surrounds the sweep: an unreachable
store raises out of issuance. -/
def encode_login_token (ud : UserData) (now : Nat) (tid1 tid2 : Str)
    (r : RStore) : Res (Token × Token × RStore) :=
  match r with
  | .down => .err .storeErr
  | .avail s =>
    let s' := sweepStore s now (pyIdStr ud.id ++ [':'])
    .ok (encode_token ud "access_token" now tid1,
         encode_token ud "refresh_token" now tid2,
         .avail s')

/-- `AuthHandler.lock_refresh_token(token)`: decode the session token,
require `sub`, `id`, `exp`, `is_active` all truthy, then
`setex("token:{id}", exp - now, "{sub}:{is_active}")` and return `sub`. -/
def lock_refresh_token (t : Token) (now : Nat) (r : RStore) :
    Res (Str × RStore) :=
  match decode_refresh_token t now with
  | .err e => .err e
  | .ok p =>
    match p.sub, p.id, p.exp, p.is_active with
    | some uid, some tid, some e, some act =>
      if uid.isEmpty || tid.isEmpty || e == 0 || !act then
        .err (.http 401 "Invalid token")
      else
        match redisSetex r now (tokNs ++ tid) (e - now)
            (uid ++ ':' :: pyBoolStr act) with
        | .err er => .err er
        | .ok r' => .ok (uid, r')
    | _, _, _, _ => .err (.http 401 "Invalid token")

/-- `AuthHandler.verify_refresh_token(token)`: decode the session token,
require a truthy `id`, then reject with `'Token locked'` when
`redis.get("token:{id}")` is truthy. -/
def verify_refresh_token (t : Token) (now : Nat) (r : RStore) : Res Unit :=
  match decode_refresh_token t now with
  | .err e => .err e
  | .ok p =>
    match p.id with
    | none => .err (.http 401 "Invalid token")
    | some tid =>
      if tid.isEmpty then .err (.http 401 "Invalid token")
      else
        match redisGet r now (tokNs ++ tid) with
        | .err e => .err e
        | .ok (some v) =>
          if v.isEmpty then .ok () else .err (.http 401 "Token locked")
        | .ok none => .ok ()

/-- `AuthHandler.auth_user`: the Session Guard.  `cookie` is the
`session-token` cookie (`none` models absent or falsy), `bearer` the
credential FastAPI extracted from the `Authorization` header. -/
def auth_user (cookie : Option Token) (bearer : Token) (now : Nat)
    (r : RStore) : Res Payload :=
  match cookie with
  | none => .err (.http 401 "Token not found")
  | some t =>
    match verify_refresh_token t now r with
    | .err e => .err e
    | .ok _ => decode_access_token bearer now

/-- One user document, the projection the routes read
(`_id`, `name`, `admin`, `is_active`). -/
structure UserRec where
  id : Str
  name : Str
  admin : Bool
  is_active : Bool
deriving DecidableEq

/-- The `users` collection. -/
abbrev UserDb := List UserRec

/-- `db.users.find_one({'_id': ObjectId(uid), 'is_active': True})`. -/
def findActiveUser (db : UserDb) (uid : Str) : Option UserRec :=
  db.find? (fun u => u.id == uid && u.is_active)

/-- Outcome of the `PATCH /users/login` route: 200 with a fresh access
token, a 403 with the given detail, or the catch-all 500 wrapping a raised
exception. -/
inductive RefreshResult where
  | issued (t : Token)
  | forbidden (detail : String)
  | serverError (e : Err)
deriving DecidableEq

/-- `refresh_login_user` (`PATCH /users/login`): decode the session cookie
(a raised decode error hits the route's catch-all `except` as a 500),
require truthy `sub`/`id`, reject when `redis.get(token_id)` is truthy —
note the key is the bare token id, not `"token:{token_id}"` — then look up
the active user and issue a fresh access token with fresh id `newTid`. -/
def refresh_login_user (cookie : Option Token) (now : Nat) (r : RStore)
    (db : UserDb) (newTid : Str) : RefreshResult :=
  match cookie with
  | none => .forbidden "Unauthorized"
  | some t =>
    match decode_refresh_token t now with
    | .err e => .serverError e
    | .ok p =>
      match p.sub, p.id with
      | some uid, some tid =>
        if uid.isEmpty || tid.isEmpty then
          .forbidden "Unauthorized - bad request"
        else
          match redisGet r now tid with
          | .err e => .serverError e
          | .ok locked =>
            if (match locked with
                | some v => !v.isEmpty
                | none => false) then
              .forbidden "Unauthorized - locked list"
            else
              match findActiveUser db uid with
              | none => .forbidden "Unauthorized - invalid user"
              | some u =>
                .issued (encode_token
                  { id := some u.id, name := some u.name, admin := u.admin,
                    is_active := u.is_active } "access_token" now newTid)
      | _, _ => .forbidden "Unauthorized - bad request"

/-- Outcome of `POST /users/logout`: 200 (cookie cleared), a 403 with the
given detail, or the catch-all 500 wrapping a raised exception; each
carries the resulting store state. -/
inductive LogoutResult where
  | success (r : RStore)
  | forbidden (detail : String) (r : RStore)
  | serverError (e : Err) (r : RStore)
deriving DecidableEq

/-- `logout_user` (`POST /users/logout`): absent cookie → 403; a raised
`lock_refresh_token` error hits the catch-all `except` as a 500 (store
unchanged, since every error path precedes or replaces the `setex` write);
then the user lookup; on success the cookie is cleared. -/
def logout_user (cookie : Option Token) (now : Nat) (r : RStore)
    (db : UserDb) : LogoutResult :=
  match cookie with
  | none => .forbidden "User is already logout" r
  | some t =>
    match lock_refresh_token t now r with
    | .err e => .serverError e r
    | .ok (uid, r') =>
      match findActiveUser db uid with
      | none => .forbidden "Unauthorized - invalid user" r'
      | some _ => .success r'

/-- The store entry `lock_refresh_token` writes: key `"token:{tid}"`,
value `"{uid}:{act}"`, expiring at the absolute instant `e` (it is written
with TTL `e - now`, hence expires exactly at `e`). -/
def revocationMarker (uid tid : Str) (act : Bool) (e : Nat) : StoreEntry :=
  { key := tokNs ++ tid, expiry := e, value := uid ++ ':' :: pyBoolStr act }

/-- A concrete valid session-token payload: token id `"t"`, subject `"u"`,
active, expiring at instant 100. -/
def pSess : Payload :=
  ⟨some ['t'], false, some true, some ['u'], some ['n'], some 100, some true⟩

/-- A concrete session-token payload whose `is_active` claim is `False`. -/
def pInactive : Payload :=
  ⟨some ['t'], false, some false, some ['u'], some ['n'], some 100, some true⟩

/-- A concrete validly-signed payload with `sub` present but no `refresh`
key. -/
def pNoRefresh : Payload :=
  ⟨some ['t'], false, some true, some ['u'], some ['n'], some 100, none⟩

/-- A concrete validly-signed, long-lived session payload lacking `sub`. -/
def pNoSub : Payload :=
  ⟨some ['t'], false, some true, none, some ['n'], some 100, some true⟩

/-- The marker `lock_refresh_token` writes for `pSess` at time 0. -/
def markerSess : StoreEntry := revocationMarker ['u'] ['t'] true 100

/-- A user directory holding the (active) subject `"u"`. -/
def dbU : UserDb := [⟨['u'], ['n'], false, true⟩]

/-- The `user_data` dict the login route builds for subject `"u"`. -/
def udU : UserData := ⟨some ['u'], some ['n'], false, true⟩

set_option maxRecDepth 8000

/-- Characterization of a successful session-token decode: the token is
signed, carries `refresh = True`, has a `sub` key, and is unexpired. -/
theorem decode_refresh_ok_iff (p q : Payload) (now : Nat) :
    decode_refresh_token (.signed p) now = .ok q ↔
      q = p ∧ p.refresh = some true ∧ p.sub.isSome ∧
        ∀ e, p.exp = some e → now < e := by
  simp only [decode_refresh_token, jwtDecode]
  cases hexp : p.exp with
  | none =>
    cases hsub : p.sub with
    | none => simp [hsub]
    | some u =>
      cases href : p.refresh with
      | none => simp [hsub, href]
      | some r => cases r <;> simp [hsub, href, eq_comm]
  | some e =>
    by_cases he : e ≤ now
    · simp only [he, if_true]
      constructor
      · intro h; exact absurd h (by simp)
      · rintro ⟨h1, h2, h3, h4⟩
        exact absurd (h4 e rfl) (Nat.not_lt.mpr he)
    · cases hsub : p.sub with
      | none => simp [hsub, he]
      | some u =>
        cases href : p.refresh with
        | none => simp [hsub, href, he]
        | some r =>
          cases r
          · simp [hsub, href, he]
          · simp [hsub, href, he, eq_comm]
            intro _
            exact Nat.lt_of_not_le he

/-- When every claim `lock_refresh_token` checks is present and truthy and
the token is unexpired, the lock succeeds and writes exactly the revocation
marker (TTL `e - now`, so absolute expiry `e`), overwriting any stale entry
under the same key. -/
theorem lock_refresh_ok (p : Payload) (now : Nat) (s : Store) (uid tid : Str)
    (e : Nat)
    (hsub : p.sub = some uid) (hid : p.id = some tid) (hexp : p.exp = some e)
    (hact : p.is_active = some true) (href : p.refresh = some true)
    (huid : uid ≠ []) (htid : tid ≠ []) (hnow : now < e) :
    lock_refresh_token (.signed p) now (.avail s) =
      .ok (uid, .avail (revocationMarker uid tid true e ::
        s.filter (fun en => !(en.key == tokNs ++ tid)))) := by
  have hdec : decode_refresh_token (.signed p) now = .ok p := by
    refine (decode_refresh_ok_iff p p now).mpr ⟨rfl, href, by simp [hsub], ?_⟩
    intro e' h'
    rw [hexp] at h'
    cases h'
    exact hnow
  have hne : e ≠ 0 := by omega
  have httl : e - now ≠ 0 := Nat.sub_ne_zero_of_lt hnow
  simp only [lock_refresh_token, hdec, hsub, hid, hexp, hact, redisSetex]
  simp [revocationMarker, List.isEmpty_iff, huid, htid, hne, httl,
    Nat.add_sub_cancel' (Nat.le_of_lt hnow)]

/-- Inversion: any successful `lock_refresh_token` run forces truthy
`sub`/`id`/`exp`/`is_active` claims, an unexpired `refresh = True` token,
and a store extended with exactly the revocation marker. -/
theorem lock_refresh_ok_inv (p : Payload) (t0 : Nat) (s : Store) (uid : Str)
    (r1 : RStore)
    (h : lock_refresh_token (.signed p) t0 (.avail s) = .ok (uid, r1)) :
    ∃ tid e,
      p.sub = some uid ∧ p.id = some tid ∧ p.exp = some e ∧
      p.is_active = some true ∧ p.refresh = some true ∧
      uid ≠ [] ∧ tid ≠ [] ∧ t0 < e ∧
      r1 = .avail (revocationMarker uid tid true e ::
        s.filter (fun en => !(en.key == tokNs ++ tid))) := by
  unfold lock_refresh_token at h
  cases hdec : decode_refresh_token (.signed p) t0 with
  | err e0 => rw [hdec] at h; exact absurd h (by simp)
  | ok q =>
    obtain ⟨hq, href, hsubs, hexpall⟩ := (decode_refresh_ok_iff p q t0).mp hdec
    subst hq
    simp only [hdec] at h
    cases hs : q.sub with
    | none => simp only [hs] at h; simp at h
    | some u =>
      cases hi : q.id with
      | none => simp only [hs, hi] at h; simp at h
      | some tid =>
        cases hx : q.exp with
        | none => simp only [hs, hi, hx] at h; simp at h
        | some e =>
          cases ha : q.is_active with
          | none => simp only [hs, hi, hx, ha] at h; simp at h
          | some act =>
            simp only [hs, hi, hx, ha] at h
            by_cases hcond : (u.isEmpty || tid.isEmpty || e == 0 || !act) = true
            · rw [if_pos hcond] at h; simp at h
            · rw [if_neg hcond] at h
              have hlt : t0 < e := hexpall e hx
              have httl : ¬((e - t0 == 0) = true) := by
                simp [Nat.sub_eq_zero_iff_le]
                omega
              simp only [redisSetex, if_neg httl] at h
              simp only [Res.ok.injEq, Prod.mk.injEq] at h
              obtain ⟨hu, hr1⟩ := h
              simp only [Bool.or_eq_true, not_or, Bool.not_eq_true] at hcond
              obtain ⟨⟨⟨h1, h2⟩, h3⟩, h4⟩ := hcond
              have huid : u ≠ [] := by
                intro hh
                rw [hh] at h1
                simp at h1
              have htid : tid ≠ [] := by
                intro hh
                rw [hh] at h2
                simp at h2
              have hactt : act = true := by simpa using h4
              subst hu
              subst hactt
              refine ⟨tid, e, rfl, rfl, rfl, rfl, href, huid, htid, hlt, ?_⟩
              rw [← hr1]
              simp [revocationMarker, Nat.add_sub_cancel' (Nat.le_of_lt hlt)]

/-- An expired session token makes `lock_refresh_token` fail during decode
with the 401 expiry response, before any store write. -/
theorem lock_expired (p : Payload) (now e : Nat) (s : Store)
    (hexp : p.exp = some e) (he : e ≤ now) :
    lock_refresh_token (.signed p) now (.avail s) =
      .err (.http 401 "Signature has expired") := by
  have hdec : decode_refresh_token (.signed p) now =
      .err (.http 401 "Signature has expired") := by
    simp [decode_refresh_token, jwtDecode, hexp, he]
  simp [lock_refresh_token, hdec]

/-- Unfolding of `encode_token` for the access branch. -/
theorem encode_access_eq (ud : UserData) (t0 : Nat) (tid : Str) :
    encode_token ud "access_token" t0 tid =
      .signed ⟨some tid, ud.admin, some ud.is_active, ud.id, ud.name,
        some (t0 + 3600), some false⟩ := by
  unfold encode_token
  rw [if_pos rfl]

/-- Unfolding of `encode_token` for the refresh branch. -/
theorem encode_refresh_eq (ud : UserData) (t0 : Nat) (tid : Str) :
    encode_token ud "refresh_token" t0 tid =
      .signed ⟨some tid, ud.admin, some ud.is_active, ud.id, ud.name,
        some (t0 + 2592000), some true⟩ := by
  unfold encode_token
  rw [if_neg (by decide)]

/-- In a store with pairwise distinct keys, `redis.get` on the key of a
live entry returns exactly that entry value. -/
theorem firstLive_of_mem (s : Store) (now : Nat) (ent : StoreEntry)
    (hnd : (s.map (fun e => e.key)).Nodup)
    (hm : ent ∈ s) (hl : ent.live now = true) :
    firstLiveValue s now ent.key = some ent.value := by
  induction s with
  | nil => cases hm
  | cons a tl ih =>
    rw [List.map_cons, List.nodup_cons] at hnd
    rcases List.mem_cons.mp hm with rfl | hm'
    · simp [firstLiveValue, List.find?, hl]
    · have hne : a.key ≠ ent.key := by
        intro hh
        exact hnd.1 (hh ▸ List.mem_map_of_mem (fun e => e.key) hm')
      have hpred : (a.key == ent.key && a.live now) = false := by
        simp [hne]
      simp only [firstLiveValue, List.find?, hpred]
      exact ih hnd.2 hm'

/-- In a store with pairwise distinct keys, `redis.get` on the key of an
expired entry returns nothing. -/
theorem firstLive_of_dead (s : Store) (now : Nat) (ent : StoreEntry)
    (hnd : (s.map (fun e => e.key)).Nodup)
    (hm : ent ∈ s) (hl : ent.live now = false) :
    firstLiveValue s now ent.key = none := by
  induction s with
  | nil => cases hm
  | cons a tl ih =>
    rw [List.map_cons, List.nodup_cons] at hnd
    rcases List.mem_cons.mp hm with rfl | hm'
    · have hpred : (ent.key == ent.key && ent.live now) = false := by
        simp [hl]
      simp only [firstLiveValue, List.find?, hpred]
      simp
      intro x hx hkey
      exact absurd (hkey ▸ List.mem_map_of_mem (fun e => e.key) hx) hnd.1
    · have hne : a.key ≠ ent.key := by
        intro hh
        exact hnd.1 (hh ▸ List.mem_map_of_mem (fun e => e.key) hm')
      have hpred : (a.key == ent.key && a.live now) = false := by
        simp [hne]
      simp only [firstLiveValue, List.find?, hpred]
      exact ih hnd.2 hm'

/-- For colon-free ids, the sweep pattern `"{uid}:"` is a prefix of a
marker value `"{s2}:{rest}"` exactly when the subjects coincide. -/
theorem colon_pattern_iff (uid : Str) :
    ∀ (s2 rest : Str), ':' ∉ uid → ':' ∉ s2 →
      (((uid ++ [':']).isPrefixOf (s2 ++ ':' :: rest)) = true ↔ uid = s2) := by
  induction uid with
  | nil =>
    intro s2 rest hu hs
    cases s2 with
    | nil => simp [List.isPrefixOf]
    | cons c cs =>
      simp only [List.nil_append, List.cons_append, List.isPrefixOf]
      constructor
      · intro h
        have hc : ':' = c := by
          have := (Bool.and_eq_true _ _).mp h
          simpa using this.1
        exact absurd (hc ▸ List.mem_cons_self c cs) hs
      · intro h
        cases h
  | cons c cs ih =>
    intro s2 rest hu hs
    cases s2 with
    | nil =>
      simp only [List.cons_append, List.nil_append, List.isPrefixOf]
      constructor
      · intro h
        have hc : c = ':' := by
          have := (Bool.and_eq_true _ _).mp h
          simpa using this.1
        exact absurd (hc ▸ List.mem_cons_self c cs) hu
      · intro h
        cases h
    | cons d ds =>
      simp only [List.cons_append, List.isPrefixOf, Bool.and_eq_true,
        beq_iff_eq, List.append_eq]
      have hu' : ':' ∉ cs := fun hh => hu (List.mem_cons_of_mem c hh)
      have hs' : ':' ∉ ds := fun hh => hs (List.mem_cons_of_mem d hh)
      rw [ih ds rest hu' hs']
      constructor
      · rintro ⟨h1, h2⟩
        rw [h1, h2]
      · intro h
        cases h
        exact ⟨rfl, rfl⟩

/-- C1: the spec requires the authorization-token refresh operation
(`PATCH /users/login`) to reject a session token whose token id has a
revocation marker in the store.  The code instead queries the bare token id
while markers live under the `"token:"` namespace (written by
`lock_refresh_token`, read by `verify_refresh_token`), so a revoked session
still obtains a fresh access token: after logout writes the marker for
`pSess`, the Session Guard rejects the token as locked, yet the refresh
route issues a new token. -/
theorem C1_refresh_route_misses_revocation_marker :
    lock_refresh_token (.signed pSess) 0 (.avail []) =
      .ok (['u'], .avail [markerSess]) ∧
    verify_refresh_token (.signed pSess) 50 (.avail [markerSess]) =
      .err (.http 401 "Token locked") ∧
    refresh_login_user (some (.signed pSess)) 50 (.avail [markerSess]) dbU
      ['z'] = .issued (encode_token udU "access_token" 50 ['z']) := by
  decide

/-- C2: after `lock_refresh_token` (logout) succeeds on a session token,
every Session Guard check (`auth_user`) presenting that same token at any
instant with remaining lifetime (`t < expires_at`) is rejected with the
revocation error `'Token locked'`, regardless of the bearer credential. -/
theorem C2_logout_then_guard_rejects (p : Payload) (t0 t : Nat) (s : Store)
    (uid : Str) (r1 : RStore) (bearer : Token)
    (hlock : lock_refresh_token (.signed p) t0 (.avail s) = .ok (uid, r1))
    (e : Nat) (hexp : p.exp = some e) (ht : t < e) :
    auth_user (some (.signed p)) bearer t r1 =
      .err (.http 401 "Token locked") := by
  obtain ⟨tid, e', hs, hi, hx, ha, href, huid, htid, hlt, hr1⟩ :=
    lock_refresh_ok_inv p t0 s uid r1 hlock
  rw [hexp] at hx
  cases hx
  subst hr1
  have hdec2 : decode_refresh_token (.signed p) t = .ok p := by
    refine (decode_refresh_ok_iff p p t).mpr ⟨rfl, href, by simp [hs], ?_⟩
    intro e2 h2
    rw [hexp] at h2
    cases h2
    exact ht
  simp only [auth_user, verify_refresh_token, hdec2, hi]
  rw [if_neg (by simpa using htid)]
  simp [redisGet, List.find?, revocationMarker, StoreEntry.live, ht]

/-- Witness for C2 at a concrete input. -/
theorem C2_witness :
    auth_user (some (.signed pSess)) .malformed 50 (.avail [markerSess]) =
      .err (.http 401 "Token locked") :=
  C2_logout_then_guard_rejects pSess 0 50 [] ['u']
    (.avail [markerSess]) .malformed (by decide) 100 rfl (by decide)

/-- C3 counterexample: a decodable session token with remaining TTL > 0
whose `is_active` claim is `False` — the claim demands that logout write
exactly one revocation marker for every decodable token, but
`lock_refresh_token` instead fails with 401 `'Invalid token'` and writes
nothing. -/
theorem C3_counterexample :
    decode_refresh_token (.signed pInactive) 0 = .ok pInactive ∧
    lock_refresh_token (.signed pInactive) 0 (.avail []) =
      .err (.http 401 "Invalid token") := by
  decide

/-- C3 (amended): for every session token decodable at logout time whose
`sub`, `id`, `exp` and `is_active` claims are truthy, logout writes exactly
one revocation marker keyed `"token:{token_id}"` with value
`"{subject}:{is_active}"` and TTL `expires_at - now` (absolute expiry
`expires_at`); remaining TTL ≤ 0 cannot coexist with decodability — an
expired token fails with the Expired error instead of succeeding
idempotently. -/
theorem C3_logout_marker_ttl :
    (∀ (p : Payload) (now : Nat) (s : Store) (uid tid : Str) (e : Nat),
      p.sub = some uid → p.id = some tid → p.exp = some e →
      p.is_active = some true → p.refresh = some true →
      uid ≠ [] → tid ≠ [] → now < e →
      lock_refresh_token (.signed p) now (.avail s) =
        .ok (uid, .avail (revocationMarker uid tid true e ::
          s.filter (fun en => !(en.key == tokNs ++ tid))))) ∧
    (∀ (p : Payload) (now e : Nat) (s : Store),
      p.exp = some e → e ≤ now →
      lock_refresh_token (.signed p) now (.avail s) =
        .err (.http 401 "Signature has expired")) :=
  ⟨fun p now s uid tid e h1 h2 h3 h4 h5 h6 h7 h8 =>
    lock_refresh_ok p now s uid tid e h1 h2 h3 h4 h5 h6 h7 h8,
   fun p now e s h1 h2 => lock_expired p now e s h1 h2⟩

/-- Witness for C3 at concrete inputs: a live token gets its marker, an
expired one is rejected. -/
theorem C3_witness :
    lock_refresh_token (.signed pSess) 0 (.avail []) =
      .ok (['u'], .avail (revocationMarker ['u'] ['t'] true 100 ::
        List.filter (fun en => !(en.key == tokNs ++ ['t'])) [])) ∧
    lock_refresh_token (.signed pSess) 200 (.avail []) =
      .err (.http 401 "Signature has expired") :=
  ⟨C3_logout_marker_ttl.1 pSess 0 [] ['u'] ['t'] 100 rfl rfl rfl rfl rfl
      (by decide) (by decide) (by decide),
   C3_logout_marker_ttl.2 pSess 200 100 [] rfl (by decide)⟩

/-- C4 counterexample: a validly signed, unexpired token with `sub` present
but no `refresh` key makes both decoders raise an uncaught `KeyError`
(`payload['refresh']`), which is not one of the three typed failures the
claim allows for every input. -/
theorem C4_counterexample :
    decode_access_token (.signed pNoRefresh) 0 = .err .keyErr ∧
    decode_refresh_token (.signed pNoRefresh) 0 = .err .keyErr := by
  decide

/-- C4 (amended): for every input token other than a validly signed,
unexpired token whose payload contains the `sub` claim but lacks the
`refresh` key, both decoders either return the claims or fail with exactly
one of the typed 401 outcomes (Expired maps to `'Signature has expired'`;
Malformed/BadSignature and InvalidKind both map to `'Invalid token'`); on
every excluded input — signed, unexpired, `sub` present, `refresh` absent —
both decoders raise an uncaught `KeyError` (`payload['refresh']`). -/
theorem C4_decode_typed_outcomes :
    (∀ (t : Token) (now : Nat),
      (∀ p, t = .signed p → (∀ e, p.exp = some e → now < e) →
        p.sub.isSome = true → (p.refresh).isSome = true) →
      ((∃ p, decode_access_token t now = .ok p) ∨
        decode_access_token t now = .err (.http 401 "Signature has expired") ∨
        decode_access_token t now = .err (.http 401 "Invalid token")) ∧
      ((∃ p, decode_refresh_token t now = .ok p) ∨
        decode_refresh_token t now =
          .err (.http 401 "Signature has expired") ∨
        decode_refresh_token t now = .err (.http 401 "Invalid token"))) ∧
    (∀ (p : Payload) (now : Nat),
      (∀ e, p.exp = some e → now < e) → p.sub.isSome = true →
      p.refresh = none →
      decode_access_token (.signed p) now = .err .keyErr ∧
      decode_refresh_token (.signed p) now = .err .keyErr) := by
  constructor
  · intro t now h
    cases t with
    | malformed => simp [decode_access_token, decode_refresh_token, jwtDecode]
    | signed p =>
      cases hexp : p.exp with
      | none =>
        cases hsub : p.sub with
        | none =>
          simp [decode_access_token, decode_refresh_token, jwtDecode, hexp,
            hsub]
        | some u =>
          have hr := h p rfl (fun e he => by rw [hexp] at he; cases he)
            (by simp [hsub])
          cases href : p.refresh with
          | none => rw [href] at hr; simp at hr
          | some r =>
            cases r <;>
              simp [decode_access_token, decode_refresh_token, jwtDecode,
                hexp, hsub, href]
      | some e =>
        by_cases he : e ≤ now
        · simp [decode_access_token, decode_refresh_token, jwtDecode, hexp,
            he]
        · cases hsub : p.sub with
          | none =>
            simp [decode_access_token, decode_refresh_token, jwtDecode,
              hexp, hsub, he]
          | some u =>
            have hr := h p rfl
              (fun e' he' => by rw [hexp] at he'; cases he'; omega)
              (by simp [hsub])
            cases href : p.refresh with
            | none => rw [href] at hr; simp at hr
            | some r =>
              cases r <;>
                simp [decode_access_token, decode_refresh_token, jwtDecode,
                  hexp, hsub, href, he]
  · intro p now hexp hsub href
    cases hx : p.exp with
    | none =>
      cases hs : p.sub with
      | none => rw [hs] at hsub; simp at hsub
      | some u =>
        simp [decode_access_token, decode_refresh_token, jwtDecode, hx, hs,
          href]
    | some e =>
      have hlt := hexp e hx
      cases hs : p.sub with
      | none => rw [hs] at hsub; simp at hsub
      | some u =>
        simp [decode_access_token, decode_refresh_token, jwtDecode, hx, hs,
          href, Nat.not_le.mpr hlt]

/-- Witness for C4: the typed-outcome half at a `refresh`-carrying token,
the `KeyError` half at a `refresh`-less signed unexpired token. -/
theorem C4_witness :
    (((∃ p, decode_access_token (.signed pSess) 0 = .ok p) ∨
      decode_access_token (.signed pSess) 0 =
        .err (.http 401 "Signature has expired") ∨
      decode_access_token (.signed pSess) 0 =
        .err (.http 401 "Invalid token")) ∧
    ((∃ p, decode_refresh_token (.signed pSess) 0 = .ok p) ∨
      decode_refresh_token (.signed pSess) 0 =
        .err (.http 401 "Signature has expired") ∨
      decode_refresh_token (.signed pSess) 0 =
        .err (.http 401 "Invalid token"))) ∧
    (decode_access_token (.signed pNoRefresh) 7 = .err .keyErr ∧
      decode_refresh_token (.signed pNoRefresh) 7 = .err .keyErr) :=
  ⟨C4_decode_typed_outcomes.1 (.signed pSess) 0
      (fun p hp _ _ => by cases hp; rfl),
   C4_decode_typed_outcomes.2 pNoRefresh 7
      (fun e he => by simp [pNoRefresh] at he; omega) (by decide) rfl⟩

/-- C5 counterexample: with the store unreachable the login-time cleanup
sweep raises out of `encode_login_token`, so token issuance fails with a
store error instead of being swallowed; and the Session Guard check with the
store unreachable fails with the store error, not the `'Token locked'`
revocation outcome. -/
theorem C5_counterexample :
    encode_login_token udU 0 ['a'] ['b'] .down = .err .storeErr ∧
    auth_user (some (.signed pSess)) (.signed pSess) 5 .down =
      .err .storeErr := by
  decide

/-- C5 (amended): if the store is unavailable during the Session Guard
revocation check the request is rejected — some error is raised, never
admission —, and if it is unavailable during the login-time cleanup sweep
the failure propagates and token issuance fails with the store error (it is
not swallowed). -/
theorem C5_store_down_behavior (tok bearer : Token) (now : Nat) (ud : UserData)
    (t1 t2 : Str) :
    (∃ e, auth_user (some tok) bearer now .down = .err e) ∧
    encode_login_token ud now t1 t2 .down = .err .storeErr := by
  refine ⟨?_, rfl⟩
  cases hdec : decode_refresh_token tok now with
  | err e => exact ⟨e, by simp [auth_user, verify_refresh_token, hdec]⟩
  | ok p =>
    cases hi : p.id with
    | none =>
      exact ⟨.http 401 "Invalid token",
        by simp [auth_user, verify_refresh_token, hdec, hi]⟩
    | some tid =>
      by_cases ht : tid.isEmpty = true
      · exact ⟨.http 401 "Invalid token",
          by simp [auth_user, verify_refresh_token, hdec, hi, ht]⟩
      · exact ⟨.storeErr,
          by simp [auth_user, verify_refresh_token, hdec, hi, ht, redisGet]⟩

/-- C6: decoding the authorization token of the pair issued for an identity
returns claims whose subject equals the identity id, and likewise for the
session token, when decoded before the respective expiry. -/
theorem C6_issue_pair_decode_subject (ud : UserData) (uid : Str) (s : Store) (t0 t t' : Nat)
    (tid1 tid2 : Str) (atk rtk : Token) (r' : RStore)
    (huid : ud.id = some uid)
    (hpair : encode_login_token ud t0 tid1 tid2 (.avail s) = .ok (atk, rtk, r'))
    (ht : t < t0 + 3600) (ht' : t' < t0 + 2592000) :
    (∃ p, decode_access_token atk t = .ok p ∧ p.sub = some uid) ∧
    (∃ q, decode_refresh_token rtk t' = .ok q ∧ q.sub = some uid) := by
  have hpair' : atk = encode_token ud "access_token" t0 tid1 ∧
      rtk = encode_token ud "refresh_token" t0 tid2 := by
    simp only [encode_login_token, Res.ok.injEq, Prod.mk.injEq] at hpair
    exact ⟨hpair.1.symm, hpair.2.1.symm⟩
  obtain ⟨ha, hr⟩ := hpair'
  subst ha
  subst hr
  rw [encode_access_eq, encode_refresh_eq]
  constructor
  · refine ⟨⟨some tid1, ud.admin, some ud.is_active, ud.id, ud.name,
      some (t0 + 3600), some false⟩, ?_, huid⟩
    simp [decode_access_token, jwtDecode, Nat.not_le.mpr ht, huid]
  · refine ⟨⟨some tid2, ud.admin, some ud.is_active, ud.id, ud.name,
      some (t0 + 2592000), some true⟩, ?_, huid⟩
    simp [decode_refresh_token, jwtDecode, Nat.not_le.mpr ht', huid]

/-- Witness for C6 at a concrete identity. -/
theorem C6_witness :
    (∃ p, decode_access_token (encode_token udU "access_token" 0 ['x']) 10 =
      .ok p ∧ p.sub = some ['u']) ∧
    (∃ q, decode_refresh_token (encode_token udU "refresh_token" 0 ['y']) 20 =
      .ok q ∧ q.sub = some ['u']) :=
  C6_issue_pair_decode_subject udU ['u'] [] 0 10 20 ['x'] ['y']
    (encode_token udU "access_token" 0 ['x'])
    (encode_token udU "refresh_token" 0 ['y']) (.avail []) rfl (by decide)
    (by decide) (by decide)

/-- C7: a validly signed, unexpired token whose payload lacks the `sub`
claim is rejected by both decoders with the invalid-token outcome. -/
theorem C7_missing_subject_rejected (p : Payload) (now : Nat) (hsub : p.sub = none)
    (hexp : ∀ e, p.exp = some e → now < e) :
    decode_access_token (.signed p) now = .err (.http 401 "Invalid token") ∧
    decode_refresh_token (.signed p) now = .err (.http 401 "Invalid token") := by
  cases hx : p.exp with
  | none => simp [decode_access_token, decode_refresh_token, jwtDecode, hx, hsub]
  | some e =>
    simp [decode_access_token, decode_refresh_token, jwtDecode, hx, hsub,
      Nat.not_le.mpr (hexp e hx)]

/-- Witness for C7 at a concrete subject-less payload. -/
theorem C7_witness :
    decode_access_token (.signed pNoSub) 0 =
      .err (.http 401 "Invalid token") ∧
    decode_refresh_token (.signed pNoSub) 0 =
      .err (.http 401 "Invalid token") :=
  C7_missing_subject_rejected pNoSub 0 rfl
    (fun e he => by simp [pNoSub] at he; omega)

/-- C8: decoding a token at any time `now` with `expires_at ≤ now` — strictly
after expiry or exactly at the expiry instant — fails with the Expired
outcome in both decoders (the boundary is exclusive). -/
theorem C8_expiry_boundary_exclusive (p : Payload) (now e : Nat) (hexp : p.exp = some e)
    (h : e ≤ now) :
    decode_access_token (.signed p) now =
      .err (.http 401 "Signature has expired") ∧
    decode_refresh_token (.signed p) now =
      .err (.http 401 "Signature has expired") := by
  simp [decode_access_token, decode_refresh_token, jwtDecode, hexp, h]

/-- Witness for C8 exactly at the expiry instant. -/
theorem C8_witness :
    decode_access_token (.signed pSess) 100 =
      .err (.http 401 "Signature has expired") ∧
    decode_refresh_token (.signed pSess) 100 =
      .err (.http 401 "Signature has expired") :=
  C8_expiry_boundary_exclusive pSess 100 100 rfl (Nat.le_refl 100)

/-- C9: for a colon-free subject id, the login-time cleanup in token
issuance deletes every live revocation marker whose stored value starts
with `"{subject}:"`, keeps every marker recording a different subject, and
the freshly issued pair — whose fresh token ids have no markers — is
admitted by the Session Guard immediately after issuance. -/
theorem C9_login_sweep_frame_admission (s : Store) (ud : UserData) (uid : Str) (t0 tc : Nat)
    (tid1 tid2 : Str)
    (huid : ud.id = some uid) (hcol : ':' ∉ uid)
    (hnd : (s.map (fun e => e.key)).Nodup)
    (hfresh : ∀ ent ∈ s, ent.key ≠ tokNs ++ tid2)
    (htid : tid2 ≠ [])
    (htc : tc < t0 + 3600) :
    ∃ atk rtk s',
      encode_login_token ud t0 tid1 tid2 (.avail s) =
        .ok (atk, rtk, .avail s') ∧
      (∀ ent ∈ s, ent.live t0 = true → tokNs.isPrefixOf ent.key = true →
        (uid ++ [':']).isPrefixOf ent.value = true → ent ∉ s') ∧
      (∀ ent ∈ s, ∀ s2 rest, ent.value = s2 ++ ':' :: rest → s2 ≠ uid →
        ':' ∉ s2 → ent ∈ s') ∧
      (∃ q, auth_user (some rtk) atk tc (.avail s') = .ok q ∧
        q.sub = some uid) := by
  refine ⟨encode_token ud "access_token" t0 tid1,
    encode_token ud "refresh_token" t0 tid2,
    sweepStore s t0 (uid ++ [':']), ?_, ?_, ?_, ?_⟩
  · simp [encode_login_token, huid, pyIdStr]
  · intro ent hm hlive hkeyp hvalp
    have hfl : firstLiveValue s t0 ent.key = some ent.value :=
      firstLive_of_mem s t0 ent hnd hm hlive
    have hvne : ent.value.isEmpty = false := by
      cases hv : ent.value with
      | nil =>
        rw [hv] at hvalp
        cases huid' : uid <;> simp [huid'] at hvalp
      | cons a l => simp
    have hdel : sweepDeletes s t0 (uid ++ [':']) ent.key = true := by
      simp [sweepDeletes, hkeyp, hfl, hvne, hvalp]
    intro hmem
    have := (List.mem_filter.mp hmem).2
    rw [hdel] at this
    cases this
  · intro ent hm s2 rest hval hneq hcols2
    have hdel : sweepDeletes s t0 (uid ++ [':']) ent.key = false := by
      cases hl : ent.live t0 with
      | true =>
        have hfl : firstLiveValue s t0 ent.key = some ent.value :=
          firstLive_of_mem s t0 ent hnd hm hl
        have hpref : (uid ++ [':']).isPrefixOf ent.value = false := by
          rw [hval]
          by_contra hh
          have := (colon_pattern_iff uid s2 rest hcol hcols2).mp
            (by simpa using hh)
          exact hneq this.symm
        simp [sweepDeletes, hfl, hpref]
      | false =>
        have hfl : firstLiveValue s t0 ent.key = none :=
          firstLive_of_dead s t0 ent hnd hm hl
        simp [sweepDeletes, hfl]
    exact List.mem_filter.mpr ⟨hm, by simp [hdel]⟩
  · rw [encode_access_eq, encode_refresh_eq]
    have hdec : decode_refresh_token
        (.signed ⟨some tid2, ud.admin, some ud.is_active, ud.id, ud.name,
          some (t0 + 2592000), some true⟩) tc =
        .ok ⟨some tid2, ud.admin, some ud.is_active, ud.id, ud.name,
          some (t0 + 2592000), some true⟩ := by
      refine (decode_refresh_ok_iff _ _ tc).mpr ⟨rfl, rfl, by simp [huid], ?_⟩
      intro e he
      simp only [Option.some.injEq] at he
      omega
    have hget : (sweepStore s t0 (uid ++ [':'])).find?
        (fun e => e.key == tokNs ++ tid2 && e.live tc) = none := by
      apply List.find?_eq_none.mpr
      intro x hx
      have hxs : x ∈ s := (List.mem_filter.mp hx).1
      simp [hfresh x hxs]
    refine ⟨⟨some tid1, ud.admin, some ud.is_active, ud.id, ud.name,
      some (t0 + 3600), some false⟩, ?_, huid⟩
    simp only [auth_user, verify_refresh_token, hdec]
    rw [if_neg (by simpa using htid)]
    simp only [redisGet, hget, Option.map_none]
    simp [decode_access_token, jwtDecode, Nat.not_le.mpr htc, huid]

/-- Witness for C9: a two-marker store where only the logging-in subject's
marker is swept and the fresh pair is admitted. -/
theorem C9_witness :
    ∃ atk rtk s',
      encode_login_token udU 7 ['x'] ['z']
        (.avail [revocationMarker ['u'] ['o'] true 50,
          revocationMarker ['w'] ['p'] true 50]) =
        .ok (atk, rtk, .avail s') ∧
      (∀ ent ∈ [revocationMarker ['u'] ['o'] true 50,
          revocationMarker ['w'] ['p'] true 50], ent.live 7 = true →
        tokNs.isPrefixOf ent.key = true →
        (['u'] ++ [':']).isPrefixOf ent.value = true → ent ∉ s') ∧
      (∀ ent ∈ [revocationMarker ['u'] ['o'] true 50,
          revocationMarker ['w'] ['p'] true 50], ∀ s2 rest,
        ent.value = s2 ++ ':' :: rest → s2 ≠ ['u'] → ':' ∉ s2 → ent ∈ s') ∧
      (∃ q, auth_user (some rtk) atk 8 (.avail s') = .ok q ∧
        q.sub = some ['u']) :=
  C9_login_sweep_frame_admission
    [revocationMarker ['u'] ['o'] true 50, revocationMarker ['w'] ['p'] true 50]
    udU ['u'] 7 8 ['x'] ['z'] rfl (by decide) (by decide) (by decide)
    (by decide) (by decide)

/-- C10: a validly signed, unexpired session token whose `is_active` claim
is falsy (`False` or missing) makes logout fail with the invalid-token
error — surfaced through the route catch-all as a 500 wrapping 401
`'Invalid token'` — and the store is left unchanged: no revocation marker is
written. -/
theorem C10_inactive_logout_no_marker (p : Payload) (now : Nat) (s : Store) (db : UserDb)
    (hact : p.is_active ≠ some true)
    (hrefresh : p.refresh = some true)
    (hexp : ∀ e, p.exp = some e → now < e) :
    logout_user (some (.signed p)) now (.avail s) db =
      .serverError (.http 401 "Invalid token") (.avail s) := by
  have hlock : lock_refresh_token (.signed p) now (.avail s) =
      .err (.http 401 "Invalid token") := by
    cases hs : p.sub with
    | none =>
      have hdec : decode_refresh_token (.signed p) now =
          .err (.http 401 "Invalid token") := by
        cases hx : p.exp with
        | none => simp [decode_refresh_token, jwtDecode, hx, hs]
        | some e =>
          simp [decode_refresh_token, jwtDecode, hx, hs,
            Nat.not_le.mpr (hexp e hx)]
      simp [lock_refresh_token, hdec]
    | some u =>
      have hdec : decode_refresh_token (.signed p) now = .ok p :=
        (decode_refresh_ok_iff p p now).mpr ⟨rfl, hrefresh, by simp [hs], hexp⟩
      cases hi : p.id with
      | none =>
        cases hx : p.exp <;> cases ha : p.is_active <;>
          simp [lock_refresh_token, hdec, hs, hi, hx, ha]
      | some tid =>
        cases hx : p.exp with
        | none =>
          cases ha : p.is_active <;>
            simp [lock_refresh_token, hdec, hs, hi, hx, ha]
        | some e =>
          cases ha : p.is_active with
          | none => simp [lock_refresh_token, hdec, hs, hi, hx, ha]
          | some act =>
            cases act with
            | true => exact absurd ha hact
            | false => simp [lock_refresh_token, hdec, hs, hi, hx, ha]
  simp [logout_user, hlock]

/-- Witness for C10 at a concrete inactive-subject session token. -/
theorem C10_witness :
    logout_user (some (.signed pInactive)) 0 (.avail []) dbU =
      .serverError (.http 401 "Invalid token") (.avail []) :=
  C10_inactive_logout_no_marker pInactive 0 [] dbU (by decide) rfl
    (fun e he => by simp [pInactive] at he; omega)
